import Mathlib

/-!
Shallow embedding of the credential store, HTTP client and terminal
dashboard of the flexprice CLI, with theorems about the behaviour of the
embedded operations.  JSON values are modelled by an inductive type with an
executable serde-style pretty printer and a fuel-based parser; numbers are
modelled as integers (no claim depends on floating-point payloads).
-/

set_option maxHeartbeats 1000000

/-- Model of a `serde_json::Value` restricted to integer numbers. -/
inductive Json where
  | null : Json
  | bool (b : Bool) : Json
  | num (n : Int) : Json
  | str (s : String) : Json
  | arr (xs : List Json) : Json
  | obj (fields : List (String × Json)) : Json

/-- Left brace character, written by code point to keep string literals plain. -/
def lbrace : Char := Char.ofNat 123

/-- Right brace character. -/
def rbrace : Char := Char.ofNat 125

/-- JSON string escaping as performed by serde-json: quote, backslash and
control characters are escaped, everything else passes through. -/
def escapeChar (c : Char) : List Char :=
  if c = '"' then ['\\', '"']
  else if c = '\\' then ['\\', '\\']
  else if c = '\n' then ['\\', 'n']
  else if c = '\t' then ['\\', 't']
  else if c = '\r' then ['\\', 'r']
  else if c = Char.ofNat 8 then ['\\', 'b']
  else if c = Char.ofNat 12 then ['\\', 'f']
  else if c.toNat < 32 then
    ['\\', 'u', '0', '0',
      (Nat.digitChar (c.toNat / 16)), (Nat.digitChar (c.toNat % 16))]
  else [c]

/-- Serialize a string with surrounding quotes and escapes. -/
def quoteString (s : String) : String :=
  String.mk ('"' :: (s.toList.flatMap escapeChar) ++ ['"'])

/-- Two-space indentation at a given nesting depth, as produced by
serde-json's pretty formatter. -/
def indentStr (depth : Nat) : String :=
  String.mk (List.replicate (2 * depth) ' ')

mutual

/-- Pretty-print a JSON value at a given depth (serde-json
`to_string_pretty` layout: two-space indent, one element per line, empty
containers rendered on a single line). -/
def Json.render : Json → Nat → String
  | Json.null, _ => "null"
  | Json.bool true, _ => "true"
  | Json.bool false, _ => "false"
  | Json.num n, _ => toString n
  | Json.str s, _ => quoteString s
  | Json.arr [], _ => "[]"
  | Json.arr (x :: xs), d =>
      "[\n" ++ indentStr (d + 1) ++ Json.render x (d + 1) ++
        Json.renderElems xs (d + 1) ++ "\n" ++ indentStr d ++ "]"
  | Json.obj [], _ => String.mk [lbrace, rbrace]
  | Json.obj (f :: fs), d =>
      String.mk [lbrace] ++ "\n" ++ indentStr (d + 1) ++
        quoteString f.1 ++ ": " ++ Json.render f.2 (d + 1) ++
        Json.renderMembers fs (d + 1) ++ "\n" ++ indentStr d ++
        String.mk [rbrace]

/-- Render the remaining elements of a non-empty array. -/
def Json.renderElems : List Json → Nat → String
  | [], _ => ""
  | x :: xs, d =>
      ",\n" ++ indentStr d ++ Json.render x d ++ Json.renderElems xs d

/-- Render the remaining members of a non-empty object. -/
def Json.renderMembers : List (String × Json) → Nat → String
  | [], _ => ""
  | f :: fs, d =>
      ",\n" ++ indentStr d ++ quoteString f.1 ++ ": " ++
        Json.render f.2 d ++ Json.renderMembers fs d

end

/-- Model of `serde_json::to_string_pretty`. -/
def Json.toStringPretty (v : Json) : String := Json.render v 0

/-- JSON whitespace. -/
def isJsonWs (c : Char) : Bool :=
  c = ' ' || c = '\n' || c = '\t' || c = '\r'

/-- Skip leading whitespace. -/
def skipWs (cs : List Char) : List Char := cs.dropWhile isJsonWs

/-- Parse the body of a JSON string literal (after the opening quote),
returning the decoded characters and the rest of the input. -/
def parseStrChars : List Char → Option (List Char × List Char)
  | [] => none
  | '"' :: rest => some ([], rest)
  | '\\' :: e :: rest =>
      let dec : Option Char :=
        if e = '"' then some '"'
        else if e = '\\' then some '\\'
        else if e = '/' then some '/'
        else if e = 'n' then some '\n'
        else if e = 't' then some '\t'
        else if e = 'r' then some '\r'
        else if e = 'b' then some (Char.ofNat 8)
        else if e = 'f' then some (Char.ofNat 12)
        else none
      match dec with
      | some c =>
          match parseStrChars rest with
          | some (cs, rem) => some (c :: cs, rem)
          | none => none
      | none => none
  | c :: rest =>
      match parseStrChars rest with
      | some (cs, rem) => some (c :: cs, rem)
      | none => none

/-- Accumulating digit parser: consumes leading digits into `acc`. -/
def parseNatAcc : Nat → List Char → Nat × List Char
  | acc, c :: rest =>
      if c.isDigit then parseNatAcc (acc * 10 + (c.toNat - 48)) rest
      else (acc, c :: rest)
  | acc, [] => (acc, [])

mutual

/-- Fuel-based recursive-descent JSON parser for one value.  Mirrors what
`serde_json::from_str` accepts on the fragment used by the program;
fractional and exponent number forms are outside the model and fail. -/
def parseVal : Nat → List Char → Option (Json × List Char)
  | 0, _ => none
  | fuel + 1, input =>
      match skipWs input with
      | [] => none
      | 'n' :: 'u' :: 'l' :: 'l' :: rest => some (Json.null, rest)
      | 't' :: 'r' :: 'u' :: 'e' :: rest => some (Json.bool true, rest)
      | 'f' :: 'a' :: 'l' :: 's' :: 'e' :: rest => some (Json.bool false, rest)
      | '"' :: rest =>
          match parseStrChars rest with
          | some (cs, rem) => some (Json.str (String.mk cs), rem)
          | none => none
      | '[' :: rest =>
          (match skipWs rest with
           | ']' :: rem => some (Json.arr [], rem)
           | other =>
               match parseElems fuel other with
               | some (xs, rem) => some (Json.arr xs, rem)
               | none => none)
      | '-' :: c :: rest =>
          if c.isDigit then
            let p := parseNatAcc (c.toNat - 48) rest
            match p.2 with
            | d :: _ =>
                if d = '.' || d = 'e' || d = 'E' then none
                else some (Json.num (-(Int.ofNat p.1)), p.2)
            | [] => some (Json.num (-(Int.ofNat p.1)), p.2)
          else none
      | c :: rest =>
          if c = lbrace then
            match skipWs rest with
            | d :: rem =>
                if d = rbrace then some (Json.obj [], rem)
                else
                  (match parseMembers fuel (d :: rem) with
                   | some (fs, rem2) => some (Json.obj fs, rem2)
                   | none => none)
            | [] => none
          else if c.isDigit then
            let p := parseNatAcc (c.toNat - 48) rest
            match p.2 with
            | d :: _ =>
                if d = '.' || d = 'e' || d = 'E' then none
                else some (Json.num (Int.ofNat p.1), p.2)
            | [] => some (Json.num (Int.ofNat p.1), p.2)
          else none

/-- Parse one or more comma-separated array elements, then the closing
bracket. -/
def parseElems : Nat → List Char → Option (List Json × List Char)
  | 0, _ => none
  | fuel + 1, input =>
      match parseVal fuel input with
      | some (v, rest) =>
          (match skipWs rest with
           | ',' :: rem =>
               match parseElems fuel rem with
               | some (vs, rem2) => some (v :: vs, rem2)
               | none => none
           | ']' :: rem => some ([v], rem)
           | _ => none)
      | none => none

/-- Parse one or more comma-separated object members, then the closing
brace. -/
def parseMembers : Nat → List Char → Option (List (String × Json) × List Char)
  | 0, _ => none
  | fuel + 1, input =>
      match skipWs input with
      | '"' :: rest =>
          (match parseStrChars rest with
           | some (cs, rem) =>
               (match skipWs rem with
                | ':' :: rem2 =>
                    (match parseVal fuel rem2 with
                     | some (v, rem3) =>
                         (match skipWs rem3 with
                          | ',' :: rem4 =>
                              (match parseMembers fuel rem4 with
                               | some (fs, rem5) =>
                                   some ((String.mk cs, v) :: fs, rem5)
                               | none => none)
                          | d :: rem4 =>
                              if d = rbrace then
                                some ([(String.mk cs, v)], rem4)
                              else none
                          | [] => none)
                     | none => none)
                | _ => none)
           | none => none)
      | _ => none

end

/-- Model of `serde_json::from_str::<serde_json::Value>`: parse a complete
JSON document, allowing trailing whitespace only. -/
def Json.parse (s : String) : Option Json :=
  match parseVal (2 * s.length + 2) s.toList with
  | some (v, rest) => if (skipWs rest).isEmpty then some v else none
  | none => none

/-- Field lookup on a JSON value, as `serde_json::Value::get(name)`:
first matching key of an object, nothing otherwise. -/
def Json.get : Json → String → Option Json
  | Json.obj fields, name =>
      match fields.find? (fun f => f.1 = name) with
      | some f => some f.2
      | none => none
  | _, _ => none

/-- `Value::as_str`. -/
def Json.asStr : Json → Option String
  | Json.str s => some s
  | _ => none

/-- `Value::as_array`. -/
def Json.asArr : Json → Option (List Json)
  | Json.arr xs => some xs
  | _ => none

example : Json.parse "[1, 2]" = some (Json.arr [Json.num 1, Json.num 2]) := rfl

example :
    Json.toStringPretty (Json.obj [("id", Json.str "a"), ("n", Json.num 3)]) =
      "\x7b\n  \"id\": \"a\",\n  \"n\": 3\n\x7d" := rfl

example :
    Json.parse (Json.toStringPretty (Json.obj [("items", Json.arr [Json.obj [("id", Json.str "a")], Json.obj [("id", Json.str "b")]])])) =
      some (Json.obj [("items", Json.arr [Json.obj [("id", Json.str "a")], Json.obj [("id", Json.str "b")]])]) := rfl

/-! ## Credential store (src/config/store.rs) -/

/-- `Credentials` record from `src/config/store.rs`; every field carries
`#[serde(default)]`. -/
structure Credentials where
  api_url : String
  api_key : Option String
  auth_token : Option String
  tenant_id : Option String
  user_id : Option String
  environment_id : Option String
deriving DecidableEq

/-- `Default` derive for `Credentials`: empty URL, all options absent. -/
def Credentials.default : Credentials :=
  { api_url := "", api_key := none, auth_token := none,
    tenant_id := none, user_id := none, environment_id := none }

/-- Deserialize an optional string field as serde does for
`Option String` with `#[serde(default)]`: missing or `null` gives `none`,
a string gives `some`, any other JSON type is a type error (`none` result
of the outer option means the whole parse fails). -/
def getOptStrField (fields : List (String × Json)) (name : String) :
    Option (Option String) :=
  match fields.find? (fun f => f.1 = name) with
  | none => some none
  | some (_, Json.null) => some none
  | some (_, Json.str s) => some (some s)
  | some _ => none

/-- Deserialize the `api_url : String` field with `#[serde(default)]`:
missing gives the empty default, a string gives itself, anything else
(including `null`) is a type error. -/
def getStrFieldD (fields : List (String × Json)) (name : String) :
    Option String :=
  match fields.find? (fun f => f.1 = name) with
  | none => some ""
  | some (_, Json.str s) => some s
  | some _ => none

/-- `serde_json::from_str::<Credentials>`: the document must be a JSON
object; unknown fields are ignored; each known field must have the right
type. -/
def parseCredentials (content : String) : Option Credentials :=
  match Json.parse content with
  | some (Json.obj fields) =>
      match getStrFieldD fields "api_url", getOptStrField fields "api_key",
            getOptStrField fields "auth_token",
            getOptStrField fields "tenant_id",
            getOptStrField fields "user_id",
            getOptStrField fields "environment_id" with
      | some url, some key, some tok, some ten, some uid, some env =>
          some { api_url := url, api_key := key, auth_token := tok,
                 tenant_id := ten, user_id := uid, environment_id := env }
      | _, _, _, _, _, _ => none
  | _ => none

/-- State of the credentials file at the well-known per-user path. -/
inductive FileState where
  | missing : FileState
  | unreadable : FileState
  | present (content : String) : FileState
deriving DecidableEq

/-- Failure cases of `Credentials::load_from_file`. -/
inductive LoadErr where
  | notFound : LoadErr
  | ioError : LoadErr
  | corrupt : LoadErr
deriving DecidableEq

/-- `Credentials::load_from_file`: fails when the file is missing, when it
cannot be read, or when its content does not parse as a `Credentials`
record. -/
def Credentials.load_from_file (fs : FileState) : Except LoadErr Credentials :=
  match fs with
  | FileState.missing => Except.error LoadErr.notFound
  | FileState.unreadable => Except.error LoadErr.ioError
  | FileState.present content =>
      match parseCredentials content with
      | some creds => Except.ok creds
      | none => Except.error LoadErr.corrupt

/-- The three environment variables read during resolution
(`FLEXPRICE_API_URL`, `FLEXPRICE_API_KEY`, `FLEXPRICE_ENVIRONMENT_ID`);
`none` models an unset variable. -/
structure EnvVars where
  api_url : Option String
  api_key : Option String
  environment_id : Option String

/-- The `Self::load_from_file().unwrap_or_default()` step of
`Credentials::load`: the stored record, or the all-default record when
loading fails for any reason. -/
def loadedOrDefault (fs : FileState) : Credentials :=
  match Credentials.load_from_file fs with
  | Except.ok c => c
  | Except.error _ => Credentials.default

/-- `Credentials::load`: start from the stored record (or the default when
loading fails for any reason), apply the non-empty environment overrides,
then the CLI-flag overrides.  Always returns `ok`. -/
def Credentials.load (fs : FileState) (env : EnvVars)
    (cli_api_url cli_api_key : Option String) : Except String Credentials :=
  let creds := loadedOrDefault fs
  let creds := match env.api_url with
    | some val => if val ≠ "" then { creds with api_url := val } else creds
    | none => creds
  let creds := match env.api_key with
    | some val => if val ≠ "" then { creds with api_key := some val } else creds
    | none => creds
  let creds := match env.environment_id with
    | some val =>
        if val ≠ "" then { creds with environment_id := some val } else creds
    | none => creds
  let creds := match cli_api_url with
    | some url => { creds with api_url := url }
    | none => creds
  let creds := match cli_api_key with
    | some key => { creds with api_key := some key }
    | none => creds
  Except.ok creds

/-- `Credentials::is_authenticated`. -/
def Credentials.is_authenticated (c : Credentials) : Bool :=
  c.api_key.isSome || c.auth_token.isSome

/-- `Credentials::get_auth_header`. -/
def Credentials.get_auth_header (c : Credentials) : Option (String × String) :=
  match c.api_key with
  | some key => some ("x-api-key", key)
  | none =>
      match c.auth_token with
      | some token => some ("Authorization", "Bearer " ++ token)
      | none => none

/-- Rust `str::is_char_boundary` on a UTF-8 byte sequence (bytes modelled
as naturals below 256): position 0 and the end are boundaries, as is any
index whose byte is not a continuation byte; indices past the end are
not. -/
def isCharBoundary (bs : List Nat) (i : Nat) : Bool :=
  if i = 0 then true
  else if i = bs.length then true
  else
    match bs.get? i with
    | some b => decide (b < 128 ∨ 192 ≤ b)
    | none => false

/-- Bytes of an ASCII string (each character below 128 is its own UTF-8
byte). -/
def asciiBytes (s : String) : List Nat := s.toList.map Char.toNat

/-- `Credentials::masked_api_key`, modelled at the UTF-8 byte level:
`key.len()` is the byte length and `&key[..4]` / `&key[key.len()-4..]`
are byte slices that panic (modelled as `none`) when the cut is not a
character boundary. -/
def masked_api_key (api_key : Option (List Nat)) : Option (List Nat) :=
  match api_key with
  | some key =>
      if key.length > 8 then
        if isCharBoundary key 4 && isCharBoundary key (key.length - 4) then
          some (key.take 4 ++ asciiBytes "..." ++ key.drop (key.length - 4))
        else none
      else some (List.replicate key.length (Char.toNat '*'))
  | none => some (asciiBytes "(not set)")

/-- A UTF-8 continuation byte. -/
def isContByte (b : Nat) : Bool := 128 ≤ b && b < 192

/-- Decompose a UTF-8 byte sequence into characters (fuel-based so that
the definition evaluates): each group starts at a non-continuation byte
and carries the continuation bytes that follow it. -/
def utf8CharsF : Nat → List Nat → List (List Nat)
  | 0, _ => []
  | _ + 1, [] => []
  | fuel + 1, b :: rest =>
      (b :: rest.takeWhile isContByte) ::
        utf8CharsF fuel (rest.dropWhile isContByte)

/-- Characters of a UTF-8 byte sequence. -/
def utf8Chars (bs : List Nat) : List (List Nat) :=
  utf8CharsF (bs.length + 1) bs

/-- The masking transform exactly as the claim words it, character-based
and total: more than 8 characters shows the first four and last four
characters around an ellipsis, otherwise as many asterisks as there are
characters; an absent key shows "(not set)". -/
def maskedKeyClaim (api_key : Option (List Nat)) : List Nat :=
  match api_key with
  | some key =>
      let cs := utf8Chars key
      if cs.length > 8 then
        (cs.take 4).flatten ++ asciiBytes "..." ++
          (cs.drop (cs.length - 4)).flatten
      else List.replicate cs.length (Char.toNat '*')
  | none => asciiBytes "(not set)"

/-! ## HTTP client (src/api/client.rs) -/

/-- `StatusCode::is_success` (2xx). -/
def isSuccess (status : Nat) : Bool := 200 ≤ status && status < 300

/-- `StatusCode::canonical_reason` for the statuses of the HTTP status
registry used by the http crate (the non-registered codes have none). -/
def canonicalReason (status : Nat) : Option String :=
  match status with
  | 100 => some "Continue"
  | 101 => some "Switching Protocols"
  | 102 => some "Processing"
  | 200 => some "OK"
  | 201 => some "Created"
  | 202 => some "Accepted"
  | 203 => some "Non Authoritative Information"
  | 204 => some "No Content"
  | 205 => some "Reset Content"
  | 206 => some "Partial Content"
  | 207 => some "Multi-Status"
  | 208 => some "Already Reported"
  | 226 => some "IM Used"
  | 300 => some "Multiple Choices"
  | 301 => some "Moved Permanently"
  | 302 => some "Found"
  | 303 => some "See Other"
  | 304 => some "Not Modified"
  | 305 => some "Use Proxy"
  | 307 => some "Temporary Redirect"
  | 308 => some "Permanent Redirect"
  | 400 => some "Bad Request"
  | 401 => some "Unauthorized"
  | 402 => some "Payment Required"
  | 403 => some "Forbidden"
  | 404 => some "Not Found"
  | 405 => some "Method Not Allowed"
  | 406 => some "Not Acceptable"
  | 407 => some "Proxy Authentication Required"
  | 408 => some "Request Timeout"
  | 409 => some "Conflict"
  | 410 => some "Gone"
  | 411 => some "Length Required"
  | 412 => some "Precondition Failed"
  | 413 => some "Payload Too Large"
  | 414 => some "URI Too Long"
  | 415 => some "Unsupported Media Type"
  | 416 => some "Range Not Satisfiable"
  | 417 => some "Expectation Failed"
  | 418 => some "I'm a teapot"
  | 421 => some "Misdirected Request"
  | 422 => some "Unprocessable Entity"
  | 423 => some "Locked"
  | 424 => some "Failed Dependency"
  | 426 => some "Upgrade Required"
  | 428 => some "Precondition Required"
  | 429 => some "Too Many Requests"
  | 431 => some "Request Header Fields Too Large"
  | 451 => some "Unavailable For Legal Reasons"
  | 500 => some "Internal Server Error"
  | 501 => some "Not Implemented"
  | 502 => some "Bad Gateway"
  | 503 => some "Service Unavailable"
  | 504 => some "Gateway Timeout"
  | 505 => some "HTTP Version Not Supported"
  | 506 => some "Variant Also Negotiates"
  | 507 => some "Insufficient Storage"
  | 508 => some "Loop Detected"
  | 510 => some "Not Extended"
  | 511 => some "Network Authentication Required"
  | _ => none

/-- `Display` for `StatusCode`: the numeric code, a space, then the
canonical reason (or the fixed placeholder). -/
def statusDisplay (status : Nat) : String :=
  toString status ++ " " ++
    ((canonicalReason status).getD "<unknown status code>")

/-- The structured error body the client tries to decode from a non-2xx
response (`ApiError` in src/api/client.rs, all fields defaulted). -/
structure ApiErrorBody where
  error : Option String
  message : Option String
  hint : Option String
deriving DecidableEq

/-- `serde_json::from_str::<ApiError>`: the body must be a JSON object
whose `error`/`message`/`hint` fields, when present, are strings or
null. -/
def parseApiError (body : String) : Option ApiErrorBody :=
  match Json.parse body with
  | some (Json.obj fields) =>
      match getOptStrField fields "error", getOptStrField fields "message",
            getOptStrField fields "hint" with
      | some e, some m, some h =>
          some { error := e, message := m, hint := h }
      | _, _, _ => none
  | _ => none

/-- The error message built by `ApiClient::handle_response` for a
non-success status. -/
def apiErrorMessage (status : Nat) (bodyText : String) : String :=
  match parseApiError bodyText with
  | some apiErr =>
      let msg := ((apiErr.error).orElse (fun _ => apiErr.message)).getD
        "Unknown error"
      let base := toString status ++ " (" ++
        ((canonicalReason status).getD "") ++ "): " ++ msg
      match apiErr.hint with
      | some hint => base ++ " — " ++ hint
      | none => base
  | none =>
      match status with
      | 401 => "Authentication failed. Run `flexprice auth login` or check your API key."
      | 403 => "Permission denied. Your credentials may not have access to this resource."
      | 404 => "Resource not found. Verify the ID is correct."
      | _ => statusDisplay status ++ ": " ++ bodyText

/-- `ApiClient::handle_response`: on a success status, decode the body as
the expected type (the decode outcome is passed in, since the expected
type is the caller's); on a non-success status, fail with the message
built from the body. -/
def handle_response {T : Type} (status : Nat) (bodyText : String)
    (decoded : Option T) : Except String T :=
  if isSuccess status then
    match decoded with
    | some v => Except.ok v
    | none => Except.error "Failed to parse response body"
  else Except.error (apiErrorMessage status bodyText)

/-- `ApiClient::handle_response_text`: on a success status, the raw body;
otherwise the plain `"{status}: {body}"` failure. -/
def handle_response_text (status : Nat) (bodyText : String) :
    Except String String :=
  if isSuccess status then Except.ok bodyText
  else Except.error (statusDisplay status ++ ": " ++ bodyText)

/-- Remove every trailing slash (`trim_end_matches('/')`). -/
def trimEndSlashes (s : String) : String :=
  String.mk (((s.toList.reverse).dropWhile (fun c => c = '/')).reverse)

/-- `ApiClient` state: the normalized base URL and the credentials it was
built from. -/
structure ApiClient where
  base_url : String
  credentials : Credentials
deriving DecidableEq

/-- `ApiClient::new`: substitute the hardcoded local default for an empty
URL, otherwise trim trailing slashes; the reqwest client carries a fixed
30-second timeout (not part of the pure state). -/
def ApiClient.new (credentials : Credentials) : ApiClient :=
  { base_url :=
      if credentials.api_url = "" then "http://localhost:8080"
      else trimEndSlashes credentials.api_url,
    credentials := credentials }

/-- An outgoing HTTP request as the client assembles it: target URL and
ordered header list. -/
structure Request where
  url : String
  headers : List (String × String)
deriving DecidableEq

/-- `ApiClient::apply_auth`: append the auth header when the credentials
provide one, then the `x-environment-id` header when an environment id is
set. -/
def apply_auth (c : Credentials) (req : Request) : Request :=
  let req := match c.get_auth_header with
    | some hv => { req with headers := req.headers ++ [hv] }
    | none => req
  match c.environment_id with
  | some envId => { req with headers := req.headers ++ [("x-environment-id", envId)] }
  | none => req

/-- The request assembled by `ApiClient::get` (and by the other typed
verbs, which build their requests identically) before sending. -/
def ApiClient.request (cl : ApiClient) (path : String) : Request :=
  apply_auth cl.credentials { url := cl.base_url ++ path, headers := [] }

/-- The request assembled by `ApiClient::health_check`: it targets
`/health` and — unlike every other call — never goes through
`apply_auth`. -/
def ApiClient.health_check_request (cl : ApiClient) : Request :=
  { url := cl.base_url ++ "/health", headers := [] }

/-! ## `auth set-api-key` (src/cli/auth.rs) -/

set_option linter.unusedVariables false in
/-- `set_api_key` from src/cli/auth.rs: build a fresh record holding only
the URL and the new key, run the health check against it, and on success
persist that fresh record.  The previously stored record (`store`) is
never read; the result is the new file content (`none` when the health
check failed and nothing was written). -/
def set_api_key (key api_url : String) (store : Option Credentials)
    (healthOk : Bool) : Except String (Option Credentials) :=
  let creds : Credentials :=
    { api_url := api_url, api_key := some key, auth_token := none,
      tenant_id := none, user_id := none, environment_id := none }
  if healthOk then Except.ok (some creds)
  else Except.error ("API returned status " ++ statusDisplay 500)

/-! ## Dashboard (src/tui/dashboard.rs) -/

/-- The fixed resource-tab list. -/
def TABS : List String :=
  ["Customers", "Plans", "Subscriptions", "Invoices", "Meters", "Wallets",
   "Features"]

/-- Endpoint bound to each tab. -/
def TAB_ENDPOINTS : List String :=
  ["/v1/customers", "/v1/plans", "/v1/subscriptions", "/v1/invoices",
   "/v1/meters", "/v1/wallets", "/v1/features"]

/-- The dashboard's mutable state (`App` in src/tui/dashboard.rs); the
terminal handles and the decorative sparkline are omitted as pure UI. -/
structure App where
  active_tab : Nat
  selected : Option Nat
  data_items : List String
  detail_text : String
  loading : Bool
  error : Option String
deriving DecidableEq

/-- `App::new`: tab 0, selection 0, everything else empty. -/
def App.new : App :=
  { active_tab := 0, selected := some 0, data_items := [],
    detail_text := "", loading := false, error := none }

/-- `App::next_tab`. -/
def App.next_tab (a : App) : App :=
  { a with active_tab := (a.active_tab + 1) % TABS.length,
           data_items := [], detail_text := "", error := none,
           selected := some 0 }

/-- `App::prev_tab`. -/
def App.prev_tab (a : App) : App :=
  { a with active_tab :=
             if a.active_tab = 0 then TABS.length - 1 else a.active_tab - 1,
           data_items := [], detail_text := "", error := none,
           selected := some 0 }

/-- `App::next_item`: cyclic selection advance over the current items,
no-op when there are none. -/
def App.next_item (a : App) : App :=
  if a.data_items.isEmpty then a
  else
    let i := a.selected.getD 0
    { a with selected := some ((i + 1) % a.data_items.length) }

/-- `App::prev_item`. -/
def App.prev_item (a : App) : App :=
  if a.data_items.isEmpty then a
  else
    let i := a.selected.getD 0
    let j := if i = 0 then a.data_items.length - 1 else i - 1
    { a with selected := some j }

/-- The display line `load_data` builds for one element of the `items`
array. -/
def renderLine (item : Json) : String :=
  let id := ((item.get "id").bind Json.asStr).getD "?"
  let name := (((item.get "name").orElse (fun _ => item.get "email")).orElse
      (fun _ => item.get "event_name") |>.bind Json.asStr).getD "-"
  let status := (((item.get "status").orElse
      (fun _ => item.get "subscription_status")).orElse
      (fun _ => item.get "invoice_status") |>.orElse
      (fun _ => item.get "wallet_status") |>.bind Json.asStr).getD ""
  if status = "" then id ++ "  " ++ name
  else id ++ "  " ++ name ++ "  [" ++ status ++ "]"

/-- `update_detail`: when the currently stored detail text parses as JSON
holding an `items` array, replace the detail with the pretty-printed
element at the selected index (leave everything untouched otherwise). -/
def update_detail (a : App) : App :=
  match Json.parse a.detail_text with
  | some json =>
      match (json.get "items").bind Json.asArr with
      | some items =>
          let idx := a.selected.getD 0
          match items.get? idx with
          | some item => { a with detail_text := item.toStringPretty }
          | none => a
      | none => a
  | none => a

/-- `load_data`: the fetch result for the active tab's endpoint is passed
in (`Except.error` models a failed `get_text` call).  The body is parsed,
the item lines and detail text rebuilt, the selection reset to 0, and
`update_detail` applied — exactly the statement sequence of the source. -/
def load_data (a : App) (fetched : Except String String) : App :=
  let a := { a with loading := true, error := none }
  let a := match fetched with
    | Except.ok body =>
        (match Json.parse body with
         | some json =>
             (match (json.get "items").bind Json.asArr with
              | some items =>
                  { a with data_items := items.map renderLine,
                           detail_text := json.toStringPretty }
              | none =>
                  { a with data_items := ["(no items)"],
                           detail_text := json.toStringPretty })
         | none =>
             { a with data_items := ["(raw response)"], detail_text := body })
    | Except.error e =>
        { a with error := some e, data_items := [], detail_text := "" }
  let a := { a with loading := false, selected := some 0 }
  update_detail a

/-! ## Theorems -/

/-- An environment value counts only when set to a non-empty string. -/
def envNonEmpty (v : Option String) : Option String :=
  match v with
  | some s => if s ≠ "" then some s else none
  | none => none

/-- The resolution result exactly as the spec words it: a field-wise merge
in which a CLI flag wins when present, else a non-empty environment value,
else the stored value; fields with no override come from the stored
record. -/
def resolveSpec (stored : Credentials) (env : EnvVars)
    (cliUrl cliKey : Option String) : Credentials :=
  { api_url := (cliUrl.orElse (fun _ => envNonEmpty env.api_url)).getD
      stored.api_url,
    api_key := ((cliKey.orElse (fun _ => envNonEmpty env.api_key)).orElse
      (fun _ => stored.api_key)),
    auth_token := stored.auth_token,
    tenant_id := stored.tenant_id,
    user_id := stored.user_id,
    environment_id := (envNonEmpty env.environment_id).orElse
      (fun _ => stored.environment_id) }

/-- C1.  Credential resolution precedence: for every file state, set of
environment variables and pair of CLI flags, `Credentials::load` succeeds
and returns exactly the field-wise merge described by the spec — CLI flag
over non-empty environment variable over stored record — starting from
the all-default record whenever the stored record cannot be loaded.  The
model's `load` is a pure function of its inputs (the source performs no
write), so the merged result is never persisted. -/
theorem credentials_load_precedence (fs : FileState) (env : EnvVars)
    (u k : Option String) :
    Credentials.load fs env u k =
      Except.ok (resolveSpec (loadedOrDefault fs) env u k) ∧
    loadedOrDefault FileState.missing = Credentials.default := by
  constructor
  · obtain ⟨eu, ek, ee⟩ := env
    set r := loadedOrDefault fs with hr
    cases u <;> cases k <;> cases eu <;> cases ek <;> cases ee <;>
      simp [Credentials.load, resolveSpec, envNonEmpty, Option.orElse,
        Option.getD] <;>
      split_ifs <;>
      simp_all
  · rfl

/-- C2 counterexample.  A stored record holding a bearer token, tenant and
user is passed through `set_api_key`, and the persisted record has lost
all three — the claim that the existing `auth_token` is left unchanged is
false. -/
theorem set_api_key_clears_token_counterexample :
    set_api_key "newkey" "http://api.example.com"
        (some { api_url := "http://api.example.com", api_key := none,
                auth_token := some "tok", tenant_id := some "t1",
                user_id := some "u1", environment_id := none }) true =
      Except.ok (some { api_url := "http://api.example.com",
                        api_key := some "newkey", auth_token := none,
                        tenant_id := none, user_id := none,
                        environment_id := none }) ∧
    (none : Option String) ≠ some "tok" := by
  exact ⟨rfl, by decide⟩

/-- C2 amended.  `set_api_key` never reads the stored record: whatever was
persisted before, a successful run persists the fresh record holding
exactly the given URL and key, with `auth_token`, `tenant_id`, `user_id`
and `environment_id` all absent. -/
theorem set_api_key_fresh_record (store : Option Credentials)
    (key api_url : String) :
    set_api_key key api_url store true =
      Except.ok (some { api_url := api_url, api_key := some key,
                        auth_token := none, tenant_id := none,
                        user_id := none, environment_id := none }) := rfl

/-- C6 counterexample.  A record whose only stored credential is the empty
string: the claim says `is_authenticated` must return `false`, but the
source tests only presence (`is_some`) and returns `true`. -/
theorem is_authenticated_empty_string_counterexample :
    Credentials.is_authenticated
      { api_url := "", api_key := some "", auth_token := none,
        tenant_id := none, user_id := none, environment_id := none } =
      true := rfl

/-- C6 amended.  `is_authenticated` is true iff at least one of
`api_key`/`auth_token` is present (any string, empty included), and is
false on the fresh default record. -/
theorem is_authenticated_presence (c : Credentials) :
    (Credentials.is_authenticated c = true ↔
      (∃ k, c.api_key = some k) ∨ (∃ t, c.auth_token = some t)) ∧
    Credentials.is_authenticated Credentials.default = false := by
  constructor
  · cases hk : c.api_key <;> cases ht : c.auth_token <;>
      simp [Credentials.is_authenticated, hk, ht]
  · rfl

/-- C7.  `get_auth_header` emits at most one header: `x-api-key` with the
key whenever a key is present (whatever the token holds), otherwise the
`Authorization` bearer header when a token is present, otherwise
nothing. -/
theorem get_auth_header_spec (c : Credentials) :
    (∀ k, c.api_key = some k →
        Credentials.get_auth_header c = some ("x-api-key", k)) ∧
    (c.api_key = none → ∀ t, c.auth_token = some t →
        Credentials.get_auth_header c =
          some ("Authorization", "Bearer " ++ t)) ∧
    (c.api_key = none → c.auth_token = none →
        Credentials.get_auth_header c = none) := by
  refine ⟨?_, ?_, ?_⟩
  · intro k hk
    simp [Credentials.get_auth_header, hk]
  · intro hk t ht
    simp [Credentials.get_auth_header, hk, ht]
  · intro hk ht
    simp [Credentials.get_auth_header, hk, ht]

/-- C7 witness: with both a key and a token stored, the single emitted
header is the `x-api-key` one. -/
theorem get_auth_header_spec_witness :
    Credentials.get_auth_header
      { api_url := "", api_key := some "k", auth_token := some "t",
        tenant_id := none, user_id := none, environment_id := none } =
      some ("x-api-key", "k") :=
  (get_auth_header_spec _).1 "k" rfl

/-- C10.  `Credentials::load` is total over file states — it returns `ok`
whatever the credentials file holds — and a present-but-unparseable file
behaves exactly like a missing one, even though `load_from_file` reports
the two cases as distinct errors. -/
theorem load_total_corrupt_as_missing (fs : FileState) (env : EnvVars)
    (u k : Option String) :
    (∃ c, Credentials.load fs env u k = Except.ok c) ∧
    (∀ content, parseCredentials content = none →
        Credentials.load (FileState.present content) env u k =
            Credentials.load FileState.missing env u k ∧
          Credentials.load_from_file (FileState.present content) =
            Except.error LoadErr.corrupt ∧
          Credentials.load_from_file FileState.missing =
            Except.error LoadErr.notFound) := by
  refine ⟨⟨_, rfl⟩, ?_⟩
  intro content hc
  refine ⟨?_, ?_, rfl⟩
  · simp [Credentials.load, loadedOrDefault, Credentials.load_from_file, hc]
  · simp [Credentials.load_from_file, hc]

/-- C10 witness: a file containing the unparseable text "oops" resolves
exactly as a missing file does. -/
theorem load_total_corrupt_as_missing_witness :
    Credentials.load (FileState.present "oops")
        { api_url := none, api_key := none, environment_id := none }
        none none =
      Credentials.load FileState.missing
        { api_url := none, api_key := none, environment_id := none }
        none none :=
  ((load_total_corrupt_as_missing (FileState.present "oops")
      { api_url := none, api_key := none, environment_id := none }
      none none).2 "oops" rfl).1

/-- C4 counterexample.  A 401 response whose body is the structured error
object is reported by the typed handler as
"401 (Unauthorized): nope", but `handle_response_text` ignores the
structured form and produces the generic "status: raw body" text — the
raw-text variant does not share the typed failure taxonomy. -/
theorem get_text_taxonomy_counterexample :
    handle_response 401 "\x7b\"error\":\"nope\"\x7d"
        (none : Option String) =
      Except.error "401 (Unauthorized): nope" ∧
    handle_response_text 401 "\x7b\"error\":\"nope\"\x7d" =
      Except.error "401 Unauthorized: \x7b\"error\":\"nope\"\x7d" ∧
    ("401 Unauthorized: \x7b\"error\":\"nope\"\x7d" : String) ≠
      "401 (Unauthorized): nope" := by
  refine ⟨rfl, rfl, by decide⟩

/-- C4 amended.  On every non-success status `get_text` fails with the
single fixed shape "{status display}: {raw body}" — it never parses the
body as a structured error and never applies the per-status guidance of
the typed variant — and on success it returns the body unprocessed. -/
theorem get_text_error_format (status : Nat) (body : String)
    (h : isSuccess status = false) :
    handle_response_text status body =
      Except.error (statusDisplay status ++ ": " ++ body) ∧
    ∀ status2, isSuccess status2 = true →
      handle_response_text status2 body = Except.ok body := by
  constructor
  · simp [handle_response_text, h]
  · intro s2 h2
    simp [handle_response_text, h2]

/-- C4 amended witness: a 404 with an empty body and a 200 echo. -/
theorem get_text_error_format_witness :
    handle_response_text 404 "" = Except.error "404 Not Found: " ∧
    handle_response_text 200 "raw" = Except.ok "raw" :=
  ⟨(get_text_error_format 404 "" rfl).1,
   (get_text_error_format 404 "raw" rfl).2 200 rfl⟩

/-- C9.  Whenever a non-success body parses as the structured error
object, the typed handler fails with the message
"{status} ({reason}): {error or message}" — the `error` field preferred
over `message` — with " — {hint}" appended when a hint is present. -/
theorem handle_response_structured_error {T : Type} (status : Nat)
    (body : String) (decoded : Option T) (ae : ApiErrorBody) (m : String)
    (hs : isSuccess status = false)
    (hp : parseApiError body = some ae)
    (hm : ae.error.orElse (fun _ => ae.message) = some m) :
    handle_response status body decoded =
      Except.error
        (match ae.hint with
         | some hint =>
             toString status ++ " (" ++
               ((canonicalReason status).getD "") ++ "): " ++ m ++ " — " ++
               hint
         | none =>
             toString status ++ " (" ++
               ((canonicalReason status).getD "") ++ "): " ++ m) := by
  have hbase : apiErrorMessage status body =
      (match ae.hint with
       | some hint =>
           toString status ++ " (" ++
             ((canonicalReason status).getD "") ++ "): " ++ m ++ " — " ++
             hint
       | none =>
           toString status ++ " (" ++
             ((canonicalReason status).getD "") ++ "): " ++ m) := by
    simp only [apiErrorMessage, hp, hm]
    cases ae.hint <;> simp
  simp [handle_response, hs, hbase]

/-- C9 witness: status 400 with body
`{"error":"invalid_request","hint":"check the id"}` fails with a message
carrying the mapped reason "Bad Request" and the hint. -/
theorem handle_response_structured_error_witness :
    handle_response 400
        "\x7b\"error\":\"invalid_request\",\"hint\":\"check the id\"\x7d"
        (none : Option String) =
      Except.error "400 (Bad Request): invalid_request — check the id" := by
  have h := handle_response_structured_error 400
    "\x7b\"error\":\"invalid_request\",\"hint\":\"check the id\"\x7d"
    (none : Option String)
    { error := some "invalid_request", message := none,
      hint := some "check the id" }
    "invalid_request" rfl rfl rfl
  simpa using h

/-- C5.  Evaluation at the failing input: with an API key (and an
environment id) stored, every ordinary call carries the `x-api-key` and
`x-environment-id` headers, but the health-check request — whose own
documentation says it validates connection and credentials — is built
without `apply_auth` and carries no headers at all. -/
theorem health_check_sends_no_credentials :
    (ApiClient.new
        { api_url := "http://api.example.com", api_key := some "k",
          auth_token := none, tenant_id := none, user_id := none,
          environment_id := some "env_1" }).health_check_request.headers =
      [] ∧
    ((ApiClient.new
        { api_url := "http://api.example.com", api_key := some "k",
          auth_token := none, tenant_id := none, user_id := none,
          environment_id := some "env_1" }).request "/v1/customers").headers =
      [("x-api-key", "k"), ("x-environment-id", "env_1")] :=
  ⟨rfl, rfl⟩

/-- Bytes of an ASCII string split into singleton characters. -/
theorem utf8Chars_ascii (bs : List Nat) (h : ∀ b ∈ bs, b < 128) :
    utf8Chars bs = bs.map (fun b => [b]) := by
  have key : ∀ fuel (l : List Nat), l.length < fuel → (∀ b ∈ l, b < 128) →
      utf8CharsF fuel l = l.map (fun b => [b]) := by
    intro fuel
    induction fuel with
    | zero => intro l hl _; exact absurd hl (Nat.not_lt_zero _)
    | succ n ih =>
        intro l hl hall
        cases l with
        | nil => simp [utf8CharsF]
        | cons b rest =>
            have hb : b < 128 := hall b (List.mem_cons_self b rest)
            have hrest : ∀ x ∈ rest, x < 128 := fun x hx =>
              hall x (List.mem_cons_of_mem b hx)
            have htake : rest.takeWhile isContByte = [] := by
              cases rest with
              | nil => rfl
              | cons r rs =>
                  have : r < 128 := hrest r (List.mem_cons_self r rs)
                  simp [List.takeWhile_cons, isContByte]
                  omega
            have hdrop : rest.dropWhile isContByte = rest := by
              cases rest with
              | nil => rfl
              | cons r rs =>
                  have : r < 128 := hrest r (List.mem_cons_self r rs)
                  simp [List.dropWhile_cons, isContByte]
                  omega
            simp only [utf8CharsF, htake, hdrop, List.map]
            have : rest.length < n := by
              simp only [List.length_cons] at hl
              omega
            rw [ih rest this hrest]
  exact key (bs.length + 1) bs (Nat.lt_succ_self _) h


/-- C8 counterexample.  The key "ééééé" is five characters but ten UTF-8
bytes: the claim requires five asterisks (at most 8 characters), while the
source measures bytes (10 > 8) and slices bytes, producing
"éé...éé". -/
theorem masked_api_key_multibyte_counterexample :
    (utf8Chars [195, 169, 195, 169, 195, 169, 195, 169, 195, 169]).length =
      5 ∧
    maskedKeyClaim
        (some [195, 169, 195, 169, 195, 169, 195, 169, 195, 169]) =
      [42, 42, 42, 42, 42] ∧
    masked_api_key
        (some [195, 169, 195, 169, 195, 169, 195, 169, 195, 169]) =
      some [195, 169, 195, 169, 46, 46, 46, 195, 169, 195, 169] ∧
    masked_api_key
        (some [195, 169, 195, 169, 195, 169, 195, 169, 195, 169]) ≠
      some (maskedKeyClaim
        (some [195, 169, 195, 169, 195, 169, 195, 169, 195, 169])) := by
  refine ⟨rfl, rfl, rfl, by decide⟩

/-- Flattening singleton lists is the identity. -/
theorem flatten_singletons (l : List Nat) :
    (l.map (fun b => [b])).flatten = l := by
  induction l with
  | nil => rfl
  | cons a l ih => simp [ih]

/-- Every position strictly inside an all-ASCII byte list is a character
boundary. -/
theorem boundary_of_lt (bs : List Nat) (i : Nat) (hi : i < bs.length)
    (h : ∀ b ∈ bs, b < 128) : isCharBoundary bs i = true := by
  have hne : i ≠ bs.length := Nat.ne_of_lt hi
  by_cases h0 : i = 0
  · simp [isCharBoundary, h0]
  · cases hx : bs.get? i with
    | none =>
        rw [List.get?_eq_none] at hx
        omega
    | some b =>
        have hb : b < 128 := h b (List.get?_mem hx)
        simp only [isCharBoundary, if_neg h0, if_neg hne]
        rw [hx]
        simp
        omega

/-- C8 amended.  `masked_api_key` measures and slices the key in UTF-8
bytes, not characters (a byte slice off a character boundary panics); on
ASCII keys — where bytes and characters coincide — it agrees exactly
with the claimed character-based masking, and an absent key always yields
"(not set)". -/
theorem masked_api_key_ascii_agreement (bs : List Nat)
    (h : ∀ b ∈ bs, b < 128) :
    masked_api_key (some bs) = some (maskedKeyClaim (some bs)) ∧
    masked_api_key none = some (asciiBytes "(not set)") := by
  refine ⟨?_, rfl⟩
  have hchars : utf8Chars bs = bs.map (fun b => [b]) := utf8Chars_ascii bs h
  by_cases hgt : bs.length > 8
  · have hb4 : isCharBoundary bs 4 = true :=
      boundary_of_lt bs 4 (by omega) h
    have hbn : isCharBoundary bs (bs.length - 4) = true :=
      boundary_of_lt bs (bs.length - 4) (by omega) h
    have hclaim : maskedKeyClaim (some bs) =
        bs.take 4 ++ asciiBytes "..." ++ bs.drop (bs.length - 4) := by
      simp only [maskedKeyClaim, hchars, List.length_map]
      rw [if_pos hgt]
      rw [← List.map_take, ← List.map_drop, flatten_singletons,
        flatten_singletons]
    rw [hclaim]
    simp only [masked_api_key]
    rw [if_pos hgt, if_pos (by simp [hb4, hbn])]
  · have hclaim : maskedKeyClaim (some bs) =
        List.replicate bs.length (Char.toNat '*') := by
      simp only [maskedKeyClaim, hchars, List.length_map]
      rw [if_neg hgt]
    rw [hclaim]
    simp only [masked_api_key]
    rw [if_neg hgt]

/-- C8 witness: for the ASCII key "abcd1234efgh" the source masking and
the claimed character-based masking agree ("abcd...efgh"). -/
theorem masked_api_key_ascii_agreement_witness :
    masked_api_key (some (asciiBytes "abcd1234efgh")) =
      some (maskedKeyClaim (some (asciiBytes "abcd1234efgh"))) ∧
    maskedKeyClaim (some (asciiBytes "abcd1234efgh")) =
      asciiBytes "abcd...efgh" :=
  ⟨(masked_api_key_ascii_agreement (asciiBytes "abcd1234efgh")
      (by decide)).1, rfl⟩

/-- C3 counterexample.  Fetching the two-item payload
`{"items":[{"id":"a"},{"id":"b"}]}`: because `load_data` ends by applying
`update_detail`, the post-fetch detail text is the pretty-printed element
at index 0 — not the full parsed payload as claimed — and after one
`nextItem` (selection moves to index 1) the detail text still shows the
index-0 element, not the element at the newly selected index. -/
theorem dashboard_detail_counterexample :
    (load_data App.new
        (Except.ok
          "\x7b\"items\":[\x7b\"id\":\"a\"\x7d,\x7b\"id\":\"b\"\x7d]\x7d")).detail_text =
      (Json.obj [("id", Json.str "a")]).toStringPretty ∧
    (load_data App.new
        (Except.ok
          "\x7b\"items\":[\x7b\"id\":\"a\"\x7d,\x7b\"id\":\"b\"\x7d]\x7d")).detail_text ≠
      (Json.obj [("items",
          Json.arr [Json.obj [("id", Json.str "a")],
            Json.obj [("id", Json.str "b")]])]).toStringPretty ∧
    (update_detail (load_data App.new
        (Except.ok
          "\x7b\"items\":[\x7b\"id\":\"a\"\x7d,\x7b\"id\":\"b\"\x7d]\x7d")).next_item).selected =
      some 1 ∧
    (update_detail (load_data App.new
        (Except.ok
          "\x7b\"items\":[\x7b\"id\":\"a\"\x7d,\x7b\"id\":\"b\"\x7d]\x7d")).next_item).detail_text =
      (Json.obj [("id", Json.str "a")]).toStringPretty ∧
    (Json.obj [("id", Json.str "a")]).toStringPretty ≠
      (Json.obj [("id", Json.str "b")]).toStringPretty := by
  refine ⟨rfl, by decide, rfl, rfl, by decide⟩

/-- C3 amended.  After a successful fetch whose body parses as JSON with
a top-level `items` array holding a first element, the detail text
becomes the pretty-printed element at index 0 (the trailing
`update_detail` inside `load_data` overwrites the full payload), the
selection resets to 0 and the item lines are rebuilt; a following
`nextItem` performs no refetch (it is a pure state transition), advances
the selection cyclically, and leaves the detail unchanged because the
stored detail text — now a single element with no `items` array — is all
`update_detail` ever re-reads. -/
theorem dashboard_detail_lifecycle (a : App) (body : String)
    (json v0 j0 : Json) (items : List Json)
    (hb : Json.parse body = some json)
    (hi : (json.get "items").bind Json.asArr = some items)
    (h0 : items.get? 0 = some v0)
    (hr : Json.parse json.toStringPretty = some json)
    (hv : Json.parse v0.toStringPretty = some j0)
    (hj : (j0.get "items").bind Json.asArr = none) :
    (load_data a (Except.ok body)).detail_text = v0.toStringPretty ∧
    (load_data a (Except.ok body)).selected = some 0 ∧
    (load_data a (Except.ok body)).data_items = items.map renderLine ∧
    (load_data a (Except.ok body)).error = none ∧
    (update_detail (load_data a (Except.ok body)).next_item).detail_text =
      v0.toStringPretty ∧
    (update_detail (load_data a (Except.ok body)).next_item).selected =
      some (1 % items.length) := by
  have hne : items ≠ [] := by
    intro hnil
    rw [hnil] at h0
    simp at h0
  have h1 : load_data a (Except.ok body) =
      { a with loading := false, error := none,
               data_items := items.map renderLine,
               detail_text := v0.toStringPretty, selected := some 0 } := by
    simp only [load_data, hb, hi]
    simp only [update_detail, hr, hi, Option.getD_some, h0]
  have hfe : (items.map renderLine).isEmpty = false := by
    cases items with
    | nil => exact absurd rfl hne
    | cons x xs => rfl
  have h2 : (load_data a (Except.ok body)).next_item =
      { a with loading := false, error := none,
               data_items := items.map renderLine,
               detail_text := v0.toStringPretty,
               selected := some (1 % items.length) } := by
    rw [h1]
    simp only [App.next_item, hfe, Bool.false_eq_true, if_false]
    simp [List.length_map]
  have h3 : (update_detail (load_data a (Except.ok body)).next_item) =
      { a with loading := false, error := none,
               data_items := items.map renderLine,
               detail_text := v0.toStringPretty,
               selected := some (1 % items.length) } := by
    rw [h2]
    simp only [update_detail, hv, hj]
  refine ⟨by rw [h1], by rw [h1], by rw [h1], by rw [h1], by rw [h3],
    by rw [h3]⟩

/-- C3 witness: the two-item payload `{"items":[{"id":"x"},{"id":"y"}]}`
leaves the detail at the index-0 element both right after the fetch and
after one `nextItem`. -/
theorem dashboard_detail_lifecycle_witness :
    (load_data App.new
        (Except.ok
          "\x7b\"items\":[\x7b\"id\":\"x\"\x7d,\x7b\"id\":\"y\"\x7d]\x7d")).detail_text =
      (Json.obj [("id", Json.str "x")]).toStringPretty ∧
    (update_detail (load_data App.new
        (Except.ok
          "\x7b\"items\":[\x7b\"id\":\"x\"\x7d,\x7b\"id\":\"y\"\x7d]\x7d")).next_item).detail_text =
      (Json.obj [("id", Json.str "x")]).toStringPretty := by
  have h := dashboard_detail_lifecycle App.new
    "\x7b\"items\":[\x7b\"id\":\"x\"\x7d,\x7b\"id\":\"y\"\x7d]\x7d"
    (Json.obj [("items",
        Json.arr [Json.obj [("id", Json.str "x")],
          Json.obj [("id", Json.str "y")]])])
    (Json.obj [("id", Json.str "x")])
    (Json.obj [("id", Json.str "x")])
    [Json.obj [("id", Json.str "x")], Json.obj [("id", Json.str "y")]]
    rfl rfl rfl rfl rfl rfl
  exact ⟨h.1, h.2.2.2.2.1⟩
